import Mathlib

/-!
Verification development for the `competition_analyser` repository.

The definitions below are shallow embeddings of the Python sources:
* `src/experience_evaluator.py` (`ExperienceAwareEvaluator`),
* `src/real_analyzer.py` (`RealRepositoryAnalyzer`),
* `src/repository_analyzer.py` (`RepositoryAnalyzer`),
* `src/evaluation_engine.py` (`EvaluationEngine`).

Python dictionaries that flow between the components are modelled as Lean
structures holding exactly the fields the embedded code reads; Python floats
are modelled as `ℚ` (all constants in the sources are exact decimals and all
arithmetic stays well inside exact range); Python truthiness tests on lists
and strings are modelled as the corresponding emptiness/membership tests.
-/

namespace CompetitionAnalyser

/-- Helper for `strContains`: does `pat` occur as a contiguous run in `l`? -/
def containsAux (pat : List Char) : List Char → Bool
  | [] => pat.isEmpty
  | c :: rest => pat.isPrefixOf (c :: rest) || containsAux pat rest

/-- Python's `pat in s` substring test, used throughout the analyzers. -/
def strContains (s pat : String) : Bool :=
  containsAux pat.data s.data

/-- Python's `s.lower()` (character-wise, over the underlying data). -/
def lowerStr (s : String) : String :=
  String.mk (s.data.map Char.toLower)

/-- Python's `s.startswith(pat)`. -/
def strStarts (s pat : String) : Bool :=
  pat.data.isPrefixOf s.data

/-- Python's `s.endswith(pat)`. -/
def strEnds (s pat : String) : Bool :=
  pat.data.reverse.isPrefixOf s.data.reverse

/-- Helper for `countOccur`: fuel-driven left-to-right scan counting
non-overlapping occurrences of `pat`, skipping past each match. -/
def countOccurAux (pat : List Char) : Nat → List Char → Nat
  | 0, _ => 0
  | _ + 1, [] => 0
  | fuel + 1, c :: rest =>
      if pat.isPrefixOf (c :: rest) then
        1 + countOccurAux pat fuel (List.drop (pat.length - 1) rest)
      else countOccurAux pat fuel rest

/-- Python's `s.count(pat)`: number of non-overlapping occurrences. -/
def countOccur (s pat : String) : Nat :=
  countOccurAux pat.data s.data.length s.data

/-! ## Data model: the `code_analysis` dictionary read by `ExperienceAwareEvaluator`

Fields mirror the keys accessed in `src/experience_evaluator.py`.  List-valued
entries whose only use is `len(...)` or truthiness are modelled as counts;
entries used only as truthy flags are modelled as `Bool`. -/

/-- `code_analysis["code_quality"]["python_metrics"]` as read by
`_calculate_code_quality_score` (counts of `functions`/`classes`, flag fields). -/
structure PyMetricsFacts where
  functions : Nat
  classes : Nat
  has_type_hints : Bool
  has_docstrings : Bool
  has_decorators : Bool
deriving DecidableEq

/-- `code_analysis["code_quality"]["overall"]`. -/
structure QualityOverall where
  has_error_handling : Bool
  has_logging : Bool
  has_comments : Bool
deriving DecidableEq

/-- `code_analysis["code_quality"]`; `python_metrics` is `none` when the key
is absent (the `"python_metrics" in quality` test). -/
structure CodeQualityFacts where
  python_metrics : Option PyMetricsFacts
  overall : QualityOverall
deriving DecidableEq

/-- `code_analysis["code_patterns_found"]`: `error_handling` and `logging` are
used as truthy flags, `testing` only through `len(...)` and truthiness. -/
structure CodePatternsFound where
  error_handling : Bool
  logging : Bool
  testing : Nat
deriving DecidableEq

/-- `code_analysis["structure"]["key_directories"]` membership flags. -/
structure KeyDirectories where
  src : Bool
  app : Bool
  tests : Bool
  test : Bool
  config : Bool
  configuration : Bool
  docs : Bool
  documentation : Bool
deriving DecidableEq

/-- `code_analysis["structure"]`; `architecture_patterns` is only used through
`len(...)` and truthiness. -/
structure StructureFacts where
  key_directories : KeyDirectories
  architecture_patterns : Nat
deriving DecidableEq

/-- `code_analysis["files"]`: `code_file_details` is used through truthiness and
`len(...)` (count, `0` = absent/empty), `largest_files` through the sizes (kB)
of its first three entries. -/
structure FilesFacts where
  code_file_details : Nat
  largest_files : List ℚ
deriving DecidableEq

/-- `code_analysis["documentation"]["readme"]`. -/
structure ReadmeFacts where
  readme_exists : Bool
  quality_score : Nat
  sections_installation : Bool
  sections_usage : Bool
deriving DecidableEq

/-- `code_analysis["documentation"]`. -/
structure DocumentationFacts where
  readme : ReadmeFacts
  api_docs_exists : Bool
  architecture_docs_exists : Bool
  examples_exists : Bool
deriving DecidableEq

/-- `code_analysis["testing"]`: `test_files` and `test_frameworks` are used
through `len(...)`. -/
structure TestingFacts where
  has_tests : Bool
  test_files : Nat
  test_frameworks : Nat
  test_directory_structure : Bool
  coverage : Bool
deriving DecidableEq

/-- `code_analysis["docker"]["dockerfile_analysis"]`. -/
structure DockerfileAnalysis where
  multi_stage : Bool
  has_healthcheck : Bool
  has_optimizations : Bool
deriving DecidableEq

/-- `code_analysis["docker"]`. -/
structure DockerFacts where
  has_dockerfile : Bool
  dockerfile_analysis : DockerfileAnalysis
  has_docker_compose : Bool
deriving DecidableEq

/-- `code_analysis["ci_cd"]`: `ci_files` and `ci_platforms` used through `len`. -/
structure CiCdFacts where
  has_ci : Bool
  ci_files : Nat
  ci_platforms : Nat
deriving DecidableEq

/-- `code_analysis["key_files_content"]`: `config_files` and `requirements` are
used as truthy flags; `env_reference` models the compound truthiness test
`key_files.get(".env", "") or ".env" in str(key_files.get("config_files", {}))`
on line 401 of `experience_evaluator.py`. -/
structure KeyFilesContent where
  config_files : Bool
  requirements : Bool
  env_reference : Bool
deriving DecidableEq

/-- `code_analysis["challenge_specific"]["ai_ml_indicators"]`: `libraries` used
through `len`, `model_files` and `notebooks` as truthy flags. -/
structure AiMlIndicators where
  has_ai_ml : Bool
  libraries : Nat
  model_files : Bool
  notebooks : Bool
deriving DecidableEq

/-- `code_analysis["challenge_specific"]["web_app_indicators"]`. -/
structure WebAppIndicators where
  has_web_app : Bool
  frameworks : Nat
  static_files : Bool
  templates : Bool
deriving DecidableEq

/-- `code_analysis["challenge_specific"]["data_pipeline_indicators"]`. -/
structure DataPipelineIndicators where
  has_data_pipeline : Bool
  etl_files : Nat
deriving DecidableEq

/-- `code_analysis["challenge_specific"]`. -/
structure ChallengeSpecificFacts where
  ai_ml_indicators : AiMlIndicators
  web_app_indicators : WebAppIndicators
  data_pipeline_indicators : DataPipelineIndicators
deriving DecidableEq

/-- The `code_analysis` dictionary consumed by `ExperienceAwareEvaluator`. -/
structure CodeAnalysis where
  code_quality : CodeQualityFacts
  code_patterns_found : CodePatternsFound
  structure_facts : StructureFacts
  files : FilesFacts
  documentation : DocumentationFacts
  testing : TestingFacts
  docker : DockerFacts
  ci_cd : CiCdFacts
  key_files_content : KeyFilesContent
  challenge_specific : ChallengeSpecificFacts
deriving DecidableEq

/-! ## Experience benchmarks (`ExperienceAwareEvaluator.__init__`) -/

/-- One entry of `self.experience_benchmarks`. -/
structure Benchmark where
  score_range : String
  expected_score : ℚ
  multiplier : ℚ
  strictness : ℚ
  penalty_weight : ℚ
  reward_weight : ℚ
deriving DecidableEq

/-- `self.experience_benchmarks` from `ExperienceAwareEvaluator.__init__`. -/
def experience_benchmarks : List (String × Benchmark) :=
  [ ("1st_year",        ⟨"95-100", 60, 1.0,  0.3,  0.5,  1.5⟩),
    ("2nd_year",        ⟨"90-95",  65, 0.95, 0.4,  0.6,  1.3⟩),
    ("3rd_year",        ⟨"80-85",  70, 0.90, 0.5,  0.7,  1.1⟩),
    ("4th_year",        ⟨"75-80",  75, 0.85, 0.6,  0.8,  1.0⟩),
    ("fresher",         ⟨"70-75",  68, 0.92, 0.55, 0.75, 1.2⟩),
    ("experienced_0_2", ⟨"65-70",  78, 0.80, 0.7,  0.9,  0.9⟩),
    ("senior",          ⟨"60-65",  85, 0.75, 0.8,  1.0,  0.8⟩) ]

/-- The seven recognized tier names, in the order the source declares them. -/
def tierNames : List String :=
  ["1st_year", "2nd_year", "3rd_year", "4th_year", "fresher",
   "experienced_0_2", "senior"]

/-- `self.experience_benchmarks.get(level, self.experience_benchmarks["fresher"])`
— the lookup-with-fresher-fallback used on lines 132-133 and 596-597. -/
def getBenchmark (lvl : String) : Benchmark :=
  (experience_benchmarks.lookup lvl).getD
    ⟨"70-75", 68, 0.92, 0.55, 0.75, 1.2⟩

/-! ## Raw technical scorer (`_calculate_raw_technical_score` and helpers) -/

/-- `_calculate_code_quality_score` (0-25). -/
def calculate_code_quality_score (ca : CodeAnalysis) : Nat :=
  let pyPart :=
    match ca.code_quality.python_metrics with
    | none => 0
    | some py =>
        (if py.functions ≥ 10 ∧ py.classes ≥ 3 then 8
         else if py.functions ≥ 5 ∧ py.classes ≥ 2 then 5
         else if py.functions ≥ 2 then 3 else 0)
        + (if py.has_type_hints then 2 else 0)
        + (if py.has_docstrings then 2 else 0)
        + (if py.has_decorators then 1 else 0)
  let overall := ca.code_quality.overall
  let overallPart :=
    (if overall.has_error_handling then 4 else 0)
    + (if overall.has_logging then 2 else 0)
    + (if overall.has_comments then 1 else 0)
  let patterns := ca.code_patterns_found
  let patternPart :=
    (if patterns.error_handling then 3 else 0)
    + (if patterns.logging then 2 else 0)
  min (pyPart + overallPart + patternPart) 25

/-- `_calculate_architecture_score` (0-20). -/
def calculate_architecture_score (ca : CodeAnalysis) : Nat :=
  let kd := ca.structure_facts.key_directories
  let dirPart :=
    (if kd.src ∨ kd.app then 4 else 0)
    + (if kd.tests ∨ kd.test then 2 else 0)
    + (if kd.config ∨ kd.configuration then 1 else 0)
    + (if kd.docs ∨ kd.documentation then 1 else 0)
  let filePart :=
    if ca.files.code_file_details ≠ 0 then
      (if ca.files.code_file_details ≥ 10 then 4
       else if ca.files.code_file_details ≥ 5 then 2
       else if ca.files.code_file_details ≥ 2 then 1 else 0)
      + (if ca.files.largest_files ≠ [] ∧
            ∀ s ∈ ca.files.largest_files.take 3, s < 100 then 2 else 0)
    else 0
  let patternPart :=
    if ca.structure_facts.architecture_patterns ≠ 0 then
      min (ca.structure_facts.architecture_patterns * 2) 6
    else 0
  min (dirPart + filePart + patternPart) 20

/-- `_calculate_documentation_score` (0-15). -/
def calculate_documentation_score (ca : CodeAnalysis) : Nat :=
  let docs := ca.documentation
  let readmePart :=
    if docs.readme.readme_exists then
      3 + min docs.readme.quality_score 5
      + (if docs.readme.sections_installation then 1 else 0)
      + (if docs.readme.sections_usage then 1 else 0)
    else 0
  let apiPart :=
    (if docs.api_docs_exists then 2 else 0)
    + (if docs.architecture_docs_exists then 2 else 0)
  let examplesPart := if docs.examples_exists then 3 else 0
  min (readmePart + apiPart + examplesPart) 15

/-- `_calculate_testing_score` (0-15). -/
def calculate_testing_score (ca : CodeAnalysis) : Nat :=
  let t := ca.testing
  let presencePart :=
    if t.has_tests then
      3 + (if t.test_files ≥ 5 then 2 else if t.test_files ≥ 2 then 1 else 0)
    else 0
  let frameworkPart := min (t.test_frameworks * 2) 4
  let structurePart :=
    (if t.test_directory_structure then 2 else 0)
    + (if t.coverage then 2 else 0)
  let patternPart :=
    if ca.code_patterns_found.testing ≠ 0 then
      min (ca.code_patterns_found.testing * 2) 2
    else 0
  min (presencePart + frameworkPart + structurePart + patternPart) 15

/-- `_calculate_production_score` (0-15). -/
def calculate_production_score (ca : CodeAnalysis) : Nat :=
  let d := ca.docker
  let dockerPart :=
    (if d.has_dockerfile then
      3 + (if d.dockerfile_analysis.multi_stage then 1 else 0)
        + (if d.dockerfile_analysis.has_healthcheck then 1 else 0)
        + (if d.dockerfile_analysis.has_optimizations then 1 else 0)
     else 0)
    + (if d.has_docker_compose then 1 else 0)
  let ciPart :=
    if ca.ci_cd.has_ci then
      2 + (if ca.ci_cd.ci_files ≥ 2 then 1 else 0)
        + (if ca.ci_cd.ci_platforms ≥ 2 then 1 else 0)
    else 0
  let kf := ca.key_files_content
  let configPart :=
    (if kf.config_files then 2 else 0)
    + (if kf.requirements then 2 else 0)
    + (if kf.env_reference then 1 else 0)
  min (dockerPart + ciPart + configPart) 15

/-- `_calculate_challenge_score` (0-10). -/
def calculate_challenge_score (ca : CodeAnalysis) (challenge_id : String) : Nat :=
  let cs := ca.challenge_specific
  let score :=
    if challenge_id = "challenge_023" then
      (if cs.ai_ml_indicators.has_ai_ml then 4 + min cs.ai_ml_indicators.libraries 3 else 0)
      + (if cs.ai_ml_indicators.model_files then 2 else 0)
      + (if cs.ai_ml_indicators.notebooks then 1 else 0)
    else if challenge_id = "challenge_024" then
      (if cs.ai_ml_indicators.has_ai_ml then 3 else 0)
      + (if cs.web_app_indicators.has_web_app then 3 else 0)
      + (if cs.ai_ml_indicators.has_ai_ml ∧ cs.web_app_indicators.has_web_app then 4 else 0)
    else if challenge_id = "challenge_025" then
      if cs.data_pipeline_indicators.has_data_pipeline then
        6 + min cs.data_pipeline_indicators.etl_files 4
      else 0
    else if challenge_id ∈ (["challenge_026", "challenge_027"] : List String) then
      if cs.web_app_indicators.has_web_app then
        5 + min cs.web_app_indicators.frameworks 3
        + (if cs.web_app_indicators.static_files ∧ cs.web_app_indicators.templates then 2 else 0)
      else 0
    else 0
  min score 10

/-- `_calculate_raw_technical_score`: sum of the six capped category scores,
finally capped at 100. -/
def calculate_raw_technical_score (ca : CodeAnalysis) (challenge_id : String) : Nat :=
  min (calculate_code_quality_score ca
       + calculate_architecture_score ca
       + calculate_documentation_score ca
       + calculate_testing_score ca
       + calculate_production_score ca
       + calculate_challenge_score ca challenge_id) 100

/-! ## Experience adjustments (`_calculate_penalties`, `_calculate_rewards`,
`_apply_experience_adjustments`) -/

/-- `_calculate_challenge_penalties`. -/
def calculate_challenge_penalties (ca : CodeAnalysis) (challenge_id lvl : String) : Nat :=
  if challenge_id = "challenge_023" then
    if ¬ca.challenge_specific.ai_ml_indicators.has_ai_ml then
      if lvl ∈ (["senior", "experienced_0_2"] : List String) then 10
      else if lvl ∈ (["3rd_year", "4th_year"] : List String) then 7
      else 3
    else 0
  else if challenge_id = "challenge_024" then
    if ¬ca.challenge_specific.ai_ml_indicators.has_ai_ml then
      if lvl ∈ (["senior", "experienced_0_2"] : List String) then 8
      else if lvl ∈ (["3rd_year", "4th_year"] : List String) then 5
      else 0
    else 0
  else 0

/-- `_calculate_penalties`. -/
def calculate_penalties (ca : CodeAnalysis) (lvl challenge_id : String) : Nat :=
  let base :=
    if lvl ∈ (["senior", "experienced_0_2"] : List String) then
      (if ¬ca.docker.has_dockerfile then 5 else 0)
      + (if ¬ca.testing.has_tests then 8 else 0)
      + (if ¬ca.ci_cd.has_ci then 3 else 0)
      + (if ca.documentation.readme.quality_score < 7 then 4 else 0)
    else if lvl ∈ (["3rd_year", "4th_year"] : List String) then
      (if ¬ca.testing.has_tests then 5 else 0)
      + (if ¬ca.docker.has_dockerfile then 3 else 0)
      + (if ca.documentation.readme.quality_score < 5 then 3 else 0)
    else if lvl ∈ (["1st_year", "2nd_year"] : List String) then
      if ¬ca.documentation.readme.readme_exists then 2 else 0
    else 0
  base + calculate_challenge_penalties ca challenge_id lvl

/-- `_calculate_rewards`. -/
def calculate_rewards (ca : CodeAnalysis) (lvl : String) : Nat :=
  let juniorPart :=
    if lvl ∈ (["1st_year", "2nd_year", "fresher"] : List String) then
      (if ca.testing.has_tests then 3 else 0)
      + (if ca.docker.has_dockerfile then 2 else 0)
      + (if ca.ci_cd.has_ci then 2 else 0)
    else 0
  let docPart := if ca.documentation.readme.quality_score ≥ 8 then 2 else 0
  let archPart :=
    if lvl ∈ (["3rd_year", "4th_year", "experienced_0_2"] : List String) then
      if ca.structure_facts.key_directories.tests ∧
         ca.structure_facts.key_directories.src then 2 else 0
    else 0
  juniorPart + docPart + archPart

/-- `_apply_experience_adjustments`: multiply by the tier multiplier, subtract
penalties, add rewards, clamp with `max(0, min(adjusted, 100))`. -/
def apply_experience_adjustments (raw : Nat) (cfg : Benchmark)
    (lvl : String) (ca : CodeAnalysis) (challenge_id : String) : ℚ :=
  let adjusted : ℚ := (raw : ℚ) * cfg.multiplier
  let adjusted := adjusted - (calculate_penalties ca lvl challenge_id : ℚ)
  let adjusted := adjusted + (calculate_rewards ca lvl : ℚ)
  max 0 (min adjusted 100)

/-- The final adjusted score of `evaluate_with_experience`: raw technical score
fed through `_apply_experience_adjustments` with the (fallback-resolved)
benchmark for the requested experience level. -/
def final_adjusted_score (ca : CodeAnalysis) (lvl challenge_id : String) : ℚ :=
  apply_experience_adjustments (calculate_raw_technical_score ca challenge_id)
    (getBenchmark lvl) lvl ca challenge_id

/-- `_determine_hiring_decision`. -/
def determine_hiring_decision (adjusted : ℚ) (lvl : String) : String :=
  let expected := (getBenchmark lvl).expected_score
  if lvl ∈ (["senior", "experienced_0_2"] : List String) then
    if adjusted ≥ expected + 10 then "Strong Hire"
    else if adjusted ≥ expected then "Hire"
    else if adjusted ≥ expected - 10 then "Borderline"
    else "Reject"
  else if lvl ∈ (["3rd_year", "4th_year"] : List String) then
    if adjusted ≥ expected + 15 then "Strong Hire"
    else if adjusted ≥ expected + 5 then "Hire"
    else if adjusted ≥ expected - 5 then "Borderline"
    else "Reject"
  else
    if adjusted ≥ expected + 20 then "Strong Hire"
    else if adjusted ≥ expected + 10 then "Hire"
    else if adjusted ≥ expected then "Borderline"
    else "Reject"

/-! ## Data model: the scanned repository (`RealRepositoryAnalyzer`)

A materialized repository is a list of files; each file carries its path
(components relative to the repository root, the last component being the
file name) and its textual content. -/

/-- One file of a materialized repository. -/
structure SrcFile where
  path : List String
  content : String
deriving DecidableEq

/-- The file name: the last path component. -/
def SrcFile.name (f : SrcFile) : String := f.path.getLastD ""

/-- Does the file live below a dot-prefixed (hidden) directory? -/
def SrcFile.inHiddenDir (f : SrcFile) : Bool :=
  f.path.dropLast.any (fun d => strStarts d ".")

/-- The files visited by the `os.walk` traversals that prune hidden
directories (`dirs[:] = [d for d in dirs if not d.startswith('.')]`) and skip
dot-prefixed file names (`if file.startswith('.'): continue`), as in
`_analyze_metadata`, `_analyze_files_deep` and `_calculate_stats`. -/
def walkVisible (repo : List SrcFile) : List SrcFile :=
  repo.filter (fun f => !f.inHiddenDir && !(strStarts f.name "."))

/-- `pathlib.Path.suffix` of a file name: the final dot-extension, empty for
names without a dot and for dot-files such as `.gitignore`. -/
def fileSuffix (name : String) : String :=
  let chars := name.data
  let ext := chars.reverse.takeWhile (fun c => c != '.')
  if chars.contains '.' ∧ ext.length ≠ 0 ∧ ext.length + 1 ≠ chars.length then
    String.mk ('.' :: ext.reverse)
  else ""

/-- The extension→language table of `_classify_language`. -/
def language_map : List (String × String) :=
  [(".py", "Python"), (".js", "JavaScript"), (".jsx", "JavaScript (React)"),
   (".ts", "TypeScript"), (".tsx", "TypeScript (React)"), (".java", "Java"),
   (".cpp", "C++"), (".c", "C"), (".go", "Go"), (".rs", "Rust"),
   (".rb", "Ruby"), (".php", "PHP"), (".html", "HTML"), (".css", "CSS"),
   (".scss", "SCSS"), (".less", "LESS"), (".json", "JSON"), (".yaml", "YAML"),
   (".yml", "YAML"), (".toml", "TOML"), (".md", "Markdown"), (".sql", "SQL"),
   (".sh", "Shell"), (".dockerfile", "Docker"), ("dockerfile", "Docker"),
   (".ipynb", "Jupyter Notebook")]

/-- `_classify_language`: map the lower-cased extension through the table;
a file named `dockerfile` (case-insensitive) is Docker; everything else is
`Other`. -/
def classify_language (ext fname : String) : String :=
  match language_map.lookup ext with
  | some lang => lang
  | none => if lowerStr fname = "dockerfile" then "Docker" else "Other"

/-- The `by_language` count of `_analyze_files_deep` for one language tag:
hidden directories are pruned and dot-files skipped before classification. -/
def byLanguageCount (repo : List SrcFile) (lang : String) : Nat :=
  ((walkVisible repo).filter
    (fun f => classify_language (lowerStr (fileSuffix f.name)) f.name = lang)).length

/-- `total_files` from `_analyze_metadata`: every file under the pruned walk
is counted. -/
def metadata_total_files (repo : List SrcFile) : Nat :=
  (walkVisible repo).length

/-- The candidate files of the error-handling/logging/comment scan in
`_analyze_code_quality` (lines 268-282): an `os.walk` **without** hidden-dir
pruning or dot-file skipping, filtered by `file.endswith(('.py', '.js',
'.ts', '.java'))`. -/
def qualityWalkFiles (repo : List SrcFile) : List SrcFile :=
  repo.filter (fun f =>
    strEnds f.name ".py" || strEnds f.name ".js"
      || strEnds f.name ".ts" || strEnds f.name ".java")

/-- The error-handling patterns searched for by `_analyze_code_quality`. -/
def error_patterns : List String :=
  ["try:", "except", "catch", "finally", "throw", "raise"]

/-- The `overall` block of `_analyze_code_quality`. -/
structure OverallQuality where
  has_error_handling : Bool
  has_logging : Bool
  has_comments : Bool
deriving DecidableEq

/-- The quality-signal scan of `_analyze_code_quality`: each flag becomes
true as soon as any candidate file's content matches. -/
def analyze_overall_quality (repo : List SrcFile) : OverallQuality :=
  let fs := qualityWalkFiles repo
  { has_error_handling :=
      fs.any (fun f => error_patterns.any (fun p => strContains f.content p))
    has_logging :=
      fs.any (fun f => strContains (lowerStr f.content) "log"
        || strContains f.content "console.")
    has_comments :=
      fs.any (fun f => strContains f.content "#"
        || strContains f.content "//" || strContains f.content "/*") }

/-- `self.repo_path.rglob('*.py')`: every `.py` file, **including** files
below hidden directories (pathlib's `rglob` does not skip dot-directories). -/
def pythonFiles (repo : List SrcFile) : List SrcFile :=
  repo.filter (fun f => strEnds f.name ".py")

/-- `python_metrics["total_files"]` as produced by `_analyze_code_quality`:
absent (`none`) when no `.py` file is found, otherwise the length of the
first-20-files slice handed to `_analyze_python_code`. -/
def python_metrics_total_files (repo : List SrcFile) : Option Nat :=
  let pys := pythonFiles repo
  if pys.isEmpty then none else some (pys.take 20).length

/-! ## Documentation analysis (`_analyze_documentation_deep`) -/

/-- The fixed section→keyword table of `_analyze_documentation_deep`. -/
def readme_sections_table : List (String × List String) :=
  [("installation", ["install", "setup", "getting started"]),
   ("usage", ["usage", "example", "demo"]),
   ("api", ["api", "endpoint", "rest", "graphql"]),
   ("configuration", ["config", "setting", "environment"]),
   ("testing", ["test", "testing"]),
   ("deployment", ["deploy", "docker", "production"]),
   ("contributing", ["contribut", "develop"]),
   ("license", ["license", "licence"])]

/-- `found_sections[section]`: case-insensitive substring match of any of the
section's keywords against the README content. -/
def section_found (content : String) (sec : String) : Bool :=
  match readme_sections_table.lookup sec with
  | some kws => kws.any (fun k => strContains (lowerStr content) k)
  | none => false

/-- The README quality score of `_analyze_documentation_deep` (lines
622-632): 2 points each for `installation` and `usage`, 1 point for each of
the six remaining sections, capped at 10. -/
def readme_quality_score (content : String) : Nat :=
  let score :=
    (if section_found content "installation" then 2 else 0)
    + (if section_found content "usage" then 2 else 0)
    + (if section_found content "api" then 1 else 0)
    + (if section_found content "configuration" then 1 else 0)
    + (if section_found content "testing" then 1 else 0)
    + (if section_found content "deployment" then 1 else 0)
    + (if section_found content "contributing" then 1 else 0)
    + (if section_found content "license" then 1 else 0)
  min score 10

/-- The README facts produced by `_analyze_documentation_deep`. -/
structure ReadmeDocFacts where
  readme_exists : Bool
  quality_score : Nat
deriving DecidableEq

/-- `self.repo_path.glob('README*')`: root-level files whose name starts with
`README`. -/
def readmeFilesOf (repo : List SrcFile) : List SrcFile :=
  repo.filter (fun f => f.path.length = 1 && strStarts f.name "README")

/-- The README part of `_analyze_documentation_deep`: defaults to
`exists = false` with score 0 when no root README is found; otherwise the
first match is read and scored. -/
def analyze_documentation_readme (repo : List SrcFile) : ReadmeDocFacts :=
  match readmeFilesOf repo with
  | [] => ⟨false, 0⟩
  | f :: _ => ⟨true, readme_quality_score f.content⟩

/-! ## Challenge-specific indicators (`_analyze_challenge_specific`) -/

/-- The AI/ML library-name list of `_analyze_challenge_specific`. -/
def ai_ml_libraries : List String :=
  ["tensorflow", "torch", "pytorch", "transformers", "langchain", "openai",
   "langgraph", "crewai", "autogen", "llamaindex", "haystack", "chromadb"]

/-- `rglob('*.ipynb')`. -/
def notebookFiles (repo : List SrcFile) : List SrcFile :=
  repo.filter (fun f => strEnds f.name ".ipynb")

/-- `challenge_specific["ai_ml_indicators"]["has_ai_ml"]`: true iff one of
the first 20 `.py` files mentions an AI/ML library name (case-insensitive
substring of the file content) or the repository contains a notebook.
`requirements.txt` is never inspected here. -/
def has_ai_ml (repo : List SrcFile) : Bool :=
  ((pythonFiles repo).take 20).any
    (fun f => ai_ml_libraries.any (fun lib => strContains (lowerStr f.content) lib))
  || !(notebookFiles repo).isEmpty

/-! ## Dependency parsing (`_analyze_dependencies_deep`,
`RepositoryAnalyzer._analyze_dependencies`) -/

/-- `line.split('==')[0].split('>=')[0].split('<=')[0].split('~=')[0]`. -/
def stripVersion (line : String) : String :=
  let s := (line.splitOn "==").headD ""
  let s := (s.splitOn ">=").headD ""
  let s := (s.splitOn "<=").headD ""
  (s.splitOn "~=").headD ""

/-- One iteration of the `requirements.txt` loop shared by
`_parse_requirements_txt` and `RepositoryAnalyzer._analyze_dependencies`:
strip the line, skip comments/flags/blanks, strip version specifiers, and
append the package only when it is new. -/
def requirements_step (packages : List String) (line : String) : List String :=
  let line := line.trim
  if line ≠ "" ∧ ¬strStarts line "#" ∧ ¬strStarts line "-" then
    let pkg := stripVersion line
    if pkg ≠ "" ∧ pkg ∉ packages then packages ++ [pkg] else packages
  else packages

/-- The `requirements.txt` parser over the file's lines. -/
def parse_requirements_txt (lines : List String) : List String :=
  lines.foldl requirements_step []

/-- The `list(set(packages))` dedup round-trip applied to every
package/image list by `_analyze_dependencies_deep` (lines 486-491), modelled
as `List.dedup`. -/
def set_dedup (l : List String) : List String := l.dedup

/-- `metrics['imports']`: collected into a Python `set` during the scan
(modelled as `List.dedup` of the encounter order), then truncated with
`list(...)[:20]` by `_analyze_python_code`. -/
def imports_as_list (imports : List String) : List String :=
  imports.dedup.take 20

/-- The dependency-relevant view of a `package.json`: the key lists of its
`dependencies` and `devDependencies` objects (each list duplicate-free on its
own, as JSON object keys are unique). -/
structure PackageJson where
  dependencies : List String
  devDependencies : List String
deriving DecidableEq

/-- `RepositoryAnalyzer._analyze_dependencies`, node part: extend the `node`
list with the `dependencies` keys and then the `devDependencies` keys; no
deduplication is applied. `none` models an absent `package.json`. -/
def analyze_node_dependencies (pj : Option PackageJson) : List String :=
  match pj with
  | none => []
  | some p => p.dependencies ++ p.devDependencies

/-! ## The per-challenge `EvaluationEngine` (`src/evaluation_engine.py`)

The `analysis` dictionary consumed by `EvaluationEngine` is produced by
`RepositoryAnalyzer.analyze`; the structure below holds exactly the entries
the challenge-023/024 evaluators and the bonus calculator read. -/

/-- The `analysis` input of the per-challenge evaluators. -/
structure EngineAnalysis where
  python_deps : List String
  key_src : Bool
  key_app : Bool
  has_test_directory : Bool
  test_files : Nat
  has_dockerfile : Bool
  dockerfile_file_content : Option String
  has_ci : Bool
  has_setup_instructions : Bool
  has_examples : Bool
  has_api_docs : Bool
  readme_content : String
  all_files : List String
deriving DecidableEq

/-- `sum(1 for dep in python_deps if any(lib in dep.lower() for lib in libs))`. -/
def countDepsMatching (deps libs : List String) : Nat :=
  deps.countP (fun dep => libs.any (fun lib => strContains (lowerStr dep) lib))

/-- The CV library list of `_calculate_tech_score_023`. -/
def cv_libs : List String :=
  ["opencv", "pillow", "torchvision", "pytesseract", "easyocr", "paddleocr"]

/-- The agent-framework list of `_calculate_tech_score_023`. -/
def agent_libs_023 : List String := ["langchain", "langgraph", "crewai", "autogen"]

/-- `_calculate_tech_score_023` (0-60). -/
def calculate_tech_score_023 (a : EngineAnalysis) : Nat :=
  let found_cv := countDepsMatching a.python_deps cv_libs
  let s1 := if found_cv ≥ 3 then 15 else if found_cv ≥ 2 then 10
    else if found_cv ≥ 1 then 5 else 0
  let found_agents := countDepsMatching a.python_deps agent_libs_023
  let s2 := if found_agents ≥ 2 then 15 else if found_agents ≥ 1 then 10 else 0
  let s3 := if a.key_src ∨ a.key_app then 10 else 0
  let s4 := if a.has_test_directory then 10 else 0
  let s5 := if a.has_dockerfile then 10 else 0
  min (s1 + s2 + s3 + s4 + s5) 60

/-- `_calculate_func_score_023` (0-25). -/
def calculate_func_score_023 (a : EngineAnalysis) : Nat :=
  let s1 := if a.has_setup_instructions then 5 else 0
  let s2 := if a.has_examples then 5 else 0
  let s3 := if a.has_api_docs then 5 else 0
  let demo := (a.all_files.filter (fun f =>
    strContains (lowerStr f) "demo" || strContains (lowerStr f) "example")).length
  let s4 := if demo ≥ 2 then 5 else 0
  let s5 := if a.test_files ≥ 5 then 5 else 0
  min (s1 + s2 + s3 + s4 + s5) 25

/-- The multi-modal term list of `_calculate_innov_score_023`. -/
def multi_modal_terms : List String :=
  ["multi-modal", "multimodal", "cv+llm", "computer vision", "ocr", "layout"]

/-- `_calculate_innov_score_023` (0-15). -/
def calculate_innov_score_023 (a : EngineAnalysis) : Nat :=
  let c := multi_modal_terms.countP
    (fun t => strContains (lowerStr a.readme_content) t)
  let s1 := if c ≥ 3 then 8 else if c ≥ 2 then 5 else if c ≥ 1 then 3 else 0
  let s2 := if a.has_dockerfile then 4 else 0
  let s3 := if a.has_ci then 3 else 0
  min (s1 + s2 + s3) 15

/-- The advanced-feature term list of `_calculate_bonus_score`. -/
def advanced_terms : List String :=
  ["vector", "embedding", "retrieval", "cache", "optimization",
   "performance", "monitoring", "observability"]

/-- `_calculate_bonus_score` (0-15).  The multi-stage-Docker bonus reads the
file at `docker["dockerfile_path"]`; `dockerfile_file_content` carries what
that read returns (`none` when the path is empty or the open fails, in which
case the `except: pass` contributes nothing). -/
def calculate_bonus_score (a : EngineAnalysis) : Nat :=
  let c := advanced_terms.countP
    (fun t => strContains (lowerStr a.readme_content) t)
  let s1 := if c ≥ 3 then 5 else if c ≥ 2 then 3 else if c ≥ 1 then 1 else 0
  let s2 :=
    if a.has_dockerfile then
      match a.dockerfile_file_content with
      | some content => if countOccur content "FROM " ≥ 2 then 3 else 0
      | none => 0
    else 0
  let s3 := if a.test_files ≥ 10 then 4 else 0
  let s4 := if a.has_ci then 3 else 0
  min (s1 + s2 + s3 + s4) 15

/-- The result record returned by the per-challenge evaluators. -/
structure EvalOutcome where
  total_score : Nat
  max_score : Nat
  bonus_score : Nat
  max_bonus : Nat
  final_score : Nat
deriving DecidableEq

/-- `_evaluate_challenge_023`: the bonus is capped at 15 and added **after**
the 100-point cap on the category total. -/
def evaluate_challenge_023 (a : EngineAnalysis) : EvalOutcome :=
  let total := calculate_tech_score_023 a + calculate_func_score_023 a
    + calculate_innov_score_023 a
  let bonus := calculate_bonus_score a
  { total_score := min total 100, max_score := 100,
    bonus_score := min bonus 15, max_bonus := 15,
    final_score := min total 100 + min bonus 15 }

/-- The RAG library list of `_calculate_tech_score_024`. -/
def rag_libs : List String :=
  ["langchain", "llamaindex", "chromadb", "pinecone", "faiss", "qdrant"]

/-- The agent-framework list of `_calculate_tech_score_024`. -/
def agent_libs_024 : List String := ["langgraph", "crewai", "autogen"]

/-- The cloud-pattern list of `_calculate_tech_score_024`. -/
def cloud_patterns : List String := ["boto3", "aws", "azure", "google.cloud"]

/-- `_calculate_tech_score_024` (0-60). -/
def calculate_tech_score_024 (a : EngineAnalysis) : Nat :=
  let found_rag := countDepsMatching a.python_deps rag_libs
  let s1 := if found_rag ≥ 3 then 20 else if found_rag ≥ 2 then 15
    else if found_rag ≥ 1 then 10 else 0
  let found_agents := countDepsMatching a.python_deps agent_libs_024
  let s2 := if found_agents ≥ 2 then 20 else if found_agents ≥ 1 then 15 else 0
  let found_cloud := countDepsMatching a.python_deps cloud_patterns
  let s3 := if found_cloud ≥ 2 then 20 else if found_cloud ≥ 1 then 15 else 0
  min (s1 + s2 + s3) 60

/-- `_evaluate_challenge_024` calls `self._calculate_func_score_024`; no
method of that name is defined anywhere on `EvaluationEngine`, so the Python
attribute lookup raises `AttributeError` at the call site.  The fallible call
is modelled in `Except`. -/
def calculate_func_score_024 (_a : EngineAnalysis) : Except String Nat :=
  .error "AttributeError: _calculate_func_score_024"

/-- `self._calculate_innov_score_024` is likewise undefined on
`EvaluationEngine`. -/
def calculate_innov_score_024 (_a : EngineAnalysis) : Except String Nat :=
  .error "AttributeError: _calculate_innov_score_024"

/-- `_evaluate_challenge_024`: computes the tech score, then calls the two
undefined scoring methods; the first of those calls fails, so no result
record is ever produced. -/
def evaluate_challenge_024 (a : EngineAnalysis) : Except String EvalOutcome := do
  let tech := calculate_tech_score_024 a
  let func ← calculate_func_score_024 a
  let innov ← calculate_innov_score_024 a
  let total := tech + func + innov
  let bonus := calculate_bonus_score a
  return { total_score := min total 100, max_score := 100,
           bonus_score := min bonus 15, max_bonus := 15,
           final_score := min total 100 + min bonus 15 }

/-! ## Specification-side definitions used to state the claims -/

/-- The claim's reading of the README quality score: the plain count of
recognized sections found, capped at 10. -/
def found_section_count (content : String) : Nat :=
  (if section_found content "installation" then 1 else 0)
  + (if section_found content "usage" then 1 else 0)
  + (if section_found content "api" then 1 else 0)
  + (if section_found content "configuration" then 1 else 0)
  + (if section_found content "testing" then 1 else 0)
  + (if section_found content "deployment" then 1 else 0)
  + (if section_found content "contributing" then 1 else 0)
  + (if section_found content "license" then 1 else 0)

/-- The amended reading of the README quality score: a weighted sum, 2 points
each for the installation and usage sections, 1 point for each of the other
six sections. -/
def weighted_section_score (content : String) : Nat :=
  2 * ((if section_found content "installation" then 1 else 0)
      + (if section_found content "usage" then 1 else 0))
  + ((if section_found content "api" then 1 else 0)
      + (if section_found content "configuration" then 1 else 0)
      + (if section_found content "testing" then 1 else 0)
      + (if section_found content "deployment" then 1 else 0)
      + (if section_found content "contributing" then 1 else 0)
      + (if section_found content "license" then 1 else 0))

/-- The three-tier offset grouping stated by the specification:
`{senior, experienced_0_2} ↦ (+10, 0, −10)`, `{3rd_year, 4th_year} ↦
(+15, +5, −5)`, all others `↦ (+20, +10, 0)`. -/
def decision_offsets (lvl : String) : ℚ × ℚ × ℚ :=
  if lvl ∈ (["senior", "experienced_0_2"] : List String) then (10, 0, -10)
  else if lvl ∈ (["3rd_year", "4th_year"] : List String) then (15, 5, -5)
  else (20, 10, 0)

/-- The generic decision cascade described by the specification: compare the
final score against `expected + offset` for the Strong-Hire, Hire and
Borderline offsets in turn; below all three thresholds the decision is
Reject. -/
def cascade_decision (s e : ℚ) (off : ℚ × ℚ × ℚ) : String :=
  if s ≥ e + off.1 then "Strong Hire"
  else if s ≥ e + off.2.1 then "Hire"
  else if s ≥ e + off.2.2 then "Borderline"
  else "Reject"

/-- A code-analysis record with every flag false, every count zero and every
list empty: the facts record of an empty repository. -/
def emptyAnalysis : CodeAnalysis where
  code_quality := ⟨none, ⟨false, false, false⟩⟩
  code_patterns_found := ⟨false, false, 0⟩
  structure_facts := ⟨⟨false, false, false, false, false, false, false, false⟩, 0⟩
  files := ⟨0, []⟩
  documentation := ⟨⟨false, 0, false, false⟩, false, false, false⟩
  testing := ⟨false, 0, 0, false, false⟩
  docker := ⟨false, ⟨false, false, false⟩, false⟩
  ci_cd := ⟨false, 0, 0⟩
  key_files_content := ⟨false, false, false⟩
  challenge_specific := ⟨⟨false, 0, false, false⟩, ⟨false, 0, false, false⟩, ⟨false, 0⟩⟩

/-- The empty facts record with `testing.has_tests` switched on. -/
def testsOnlyAnalysis : CodeAnalysis :=
  { emptyAnalysis with testing := { emptyAnalysis.testing with has_tests := true } }

/-- The empty facts record with the AI/ML indicator set to the given flag. -/
def analysisWithAiMl (b : Bool) : CodeAnalysis :=
  { emptyAnalysis with challenge_specific :=
      { emptyAnalysis.challenge_specific with
        ai_ml_indicators :=
          { emptyAnalysis.challenge_specific.ai_ml_indicators with
            has_ai_ml := b } } }

/-- A Python file living only below the hidden `.git` directory, containing a
try/except block. -/
def hiddenTryFile : SrcFile :=
  ⟨[".git", "hooks", "foo.py"], "try:\n    x = 1\nexcept:\n    pass\n"⟩

/-- A small visible repository used to instantiate the hidden-directory
invariance theorem. -/
def visibleDemoRepo : List SrcFile :=
  [⟨["main.py"], "x = 1\n"⟩, ⟨["README.md"], "usage\n"⟩]

/-- A repository whose only file is a `requirements.txt` listing AI/ML
packages — the Scenario-D input of the specification. -/
def requirementsOnlyRepo : List SrcFile :=
  [⟨["requirements.txt"], "torch==2.0.1\nopencv-python>=4.5\nlangchain"⟩]

/-- A repository with one Python file that imports `torch`. -/
def torchRepo : List SrcFile :=
  [⟨["main.py"], "import torch\n"⟩]

/-- An engine-analysis input on which every challenge-023 category and bonus
rule fires at its top tier. -/
def perfectEngineAnalysis : EngineAnalysis where
  python_deps := ["opencv-python", "pillow", "torchvision", "langchain", "langgraph"]
  key_src := true
  key_app := false
  has_test_directory := true
  test_files := 12
  has_dockerfile := true
  dockerfile_file_content := some "FROM python:3.11 AS build\nFROM python:3.11-slim\n"
  has_ci := true
  has_setup_instructions := true
  has_examples := true
  has_api_docs := true
  readme_content := "multimodal ocr layout vector embedding retrieval monitoring"
  all_files := ["demo1.py", "example_usage.py"]

/-- The all-empty engine-analysis input. -/
def emptyEngineAnalysis : EngineAnalysis where
  python_deps := []
  key_src := false
  key_app := false
  has_test_directory := false
  test_files := 0
  has_dockerfile := false
  dockerfile_file_content := none
  has_ci := false
  has_setup_instructions := false
  has_examples := false
  has_api_docs := false
  readme_content := ""
  all_files := []

/-! ## Benchmark evaluation lemmas -/

theorem getBenchmark_first_year :
    getBenchmark "1st_year" = ⟨"95-100", 60, 1.0, 0.3, 0.5, 1.5⟩ := rfl

theorem getBenchmark_second_year :
    getBenchmark "2nd_year" = ⟨"90-95", 65, 0.95, 0.4, 0.6, 1.3⟩ := rfl

theorem getBenchmark_third_year :
    getBenchmark "3rd_year" = ⟨"80-85", 70, 0.90, 0.5, 0.7, 1.1⟩ := rfl

theorem getBenchmark_fourth_year :
    getBenchmark "4th_year" = ⟨"75-80", 75, 0.85, 0.6, 0.8, 1.0⟩ := rfl

theorem getBenchmark_fresher :
    getBenchmark "fresher" = ⟨"70-75", 68, 0.92, 0.55, 0.75, 1.2⟩ := rfl

theorem getBenchmark_experienced :
    getBenchmark "experienced_0_2" = ⟨"65-70", 78, 0.80, 0.7, 0.9, 0.9⟩ := rfl

theorem getBenchmark_senior :
    getBenchmark "senior" = ⟨"60-65", 85, 0.75, 0.8, 1.0, 0.8⟩ := rfl

/-! ## C1: clamp formula and score bounds -/

/-- C1: for every code-analysis input, experience level and challenge
identifier, the final adjusted score equals
`max(0, min(100, raw_score × multiplier − penalties + rewards))`, the raw
technical score lies in `[0, 100]` (it is a `Nat`, so `0 ≤ raw` holds by
type), and the final adjusted score lies in `[0, 100]`. -/
theorem final_score_clamp_formula_and_bounds
    (ca : CodeAnalysis) (lvl challenge_id : String) :
    final_adjusted_score ca lvl challenge_id
      = max 0 (min 100 ((calculate_raw_technical_score ca challenge_id : ℚ)
          * (getBenchmark lvl).multiplier
          - (calculate_penalties ca lvl challenge_id : ℚ)
          + (calculate_rewards ca lvl : ℚ)))
    ∧ calculate_raw_technical_score ca challenge_id ≤ 100
    ∧ 0 ≤ final_adjusted_score ca lvl challenge_id
    ∧ final_adjusted_score ca lvl challenge_id ≤ 100 := by
  refine ⟨?_, Nat.min_le_right _ _, le_max_left _ _, ?_⟩
  · unfold final_adjusted_score apply_experience_adjustments
    rw [min_comm]
  · unfold final_adjusted_score apply_experience_adjustments
    exact max_le (by norm_num) (min_le_right _ _)

/-! ## C2: the multiplier table is not monotone in the claimed tier order -/

/-- C2 (counterexample): in the claimed least-to-most-experienced order
`1st_year, 2nd_year, 3rd_year, 4th_year, fresher, experienced_0_2, senior`
the multipliers are `1.0, 0.95, 0.90, 0.85, 0.92, 0.80, 0.75`; the step from
`4th_year` (0.85) to `fresher` (0.92) increases, so the sequence is not
monotonically decreasing. -/
theorem multiplier_chain_broken_at_fresher :
    (getBenchmark "4th_year").multiplier < (getBenchmark "fresher").multiplier
    ∧ ¬ List.Chain'
        (fun a b => (getBenchmark b).multiplier ≤ (getBenchmark a).multiplier)
        tierNames := by
  constructor
  · rw [getBenchmark_fourth_year, getBenchmark_fresher]; norm_num
  · intro hchain
    rw [tierNames] at hchain
    simp only [List.chain'_cons, List.chain'_singleton] at hchain
    have h := hchain.2.2.2.1
    rw [getBenchmark_fourth_year, getBenchmark_fresher] at h
    norm_num at h

/-- C2 (amended): every tier multiplier satisfies `0 < m ≤ 1`, the endpoints
are `1.0` (for `1st_year`) and `0.75` (for `senior`), and the multipliers are
monotonically decreasing along the tier order with `fresher` placed between
`2nd_year` and `3rd_year` (one position earlier than the claim places it). -/
theorem multiplier_monotone_with_fresher_reordered :
    List.Forall
      (fun t => 0 < (getBenchmark t).multiplier ∧ (getBenchmark t).multiplier ≤ 1)
      tierNames
    ∧ List.Chain'
        (fun a b => (getBenchmark b).multiplier ≤ (getBenchmark a).multiplier)
        ["1st_year", "2nd_year", "fresher", "3rd_year", "4th_year",
         "experienced_0_2", "senior"]
    ∧ (getBenchmark "1st_year").multiplier = 1
    ∧ (getBenchmark "senior").multiplier = 0.75 := by
  refine ⟨?_, ?_, by norm_num [getBenchmark_first_year],
    by norm_num [getBenchmark_senior]⟩
  · simp only [tierNames, List.Forall,
      getBenchmark_first_year, getBenchmark_second_year, getBenchmark_third_year,
      getBenchmark_fourth_year, getBenchmark_fresher, getBenchmark_experienced,
      getBenchmark_senior]
    norm_num
  · simp only [List.chain'_cons, List.chain'_singleton,
      getBenchmark_first_year, getBenchmark_second_year, getBenchmark_third_year,
      getBenchmark_fourth_year, getBenchmark_fresher, getBenchmark_experienced,
      getBenchmark_senior]
    norm_num

/-! ## C3: hiring decision offsets -/

/-- C3: for every final adjusted score and experience level,
`_determine_hiring_decision` agrees with the generic threshold cascade over
that tier's own expected score and the specification's three-tier offset
grouping (`+10/0/−10` for senior and experienced, `+15/+5/−5` for 3rd/4th
year, `+20/+10/0` for all other levels). -/
theorem hiring_decision_matches_offset_table (s : ℚ) (lvl : String) :
    determine_hiring_decision s lvl
      = cascade_decision s (getBenchmark lvl).expected_score
          (decision_offsets lvl) := by
  unfold determine_hiring_decision cascade_decision decision_offsets
  by_cases h1 : lvl ∈ (["senior", "experienced_0_2"] : List String)
  · simp only [h1, if_true]
    norm_num
  · by_cases h2 : lvl ∈ (["3rd_year", "4th_year"] : List String)
    · simp only [h1, h2, if_false, if_true]
      norm_num
    · simp only [h1, h2, if_false]
      norm_num

/-! ## C4: a weak repository scores no better at senior level -/

theorem rewards_weak_eq (ca : CodeAnalysis)
    (htests : ca.testing.has_tests = false)
    (hci : ca.ci_cd.has_ci = false)
    (hdocker : ca.docker.has_dockerfile = false) :
    calculate_rewards ca "senior" = calculate_rewards ca "1st_year" := by
  simp [calculate_rewards, htests, hci, hdocker]

theorem challenge_penalties_weak_mono (ca : CodeAnalysis) (cid : String) :
    calculate_challenge_penalties ca cid "1st_year"
      ≤ calculate_challenge_penalties ca cid "senior" := by
  simp only [calculate_challenge_penalties]
  by_cases h23 : cid = "challenge_023"
  · cases hai : ca.challenge_specific.ai_ml_indicators.has_ai_ml <;>
      simp [h23, hai]
  · by_cases h24 : cid = "challenge_024"
    · cases hai : ca.challenge_specific.ai_ml_indicators.has_ai_ml <;>
        simp [h23, h24, hai]
    · simp [h23, h24]

theorem penalties_weak_mono (ca : CodeAnalysis) (cid : String)
    (htests : ca.testing.has_tests = false)
    (hci : ca.ci_cd.has_ci = false)
    (hdocker : ca.docker.has_dockerfile = false) :
    calculate_penalties ca "1st_year" cid ≤ calculate_penalties ca "senior" cid := by
  have hch := challenge_penalties_weak_mono ca cid
  simp only [calculate_penalties]
  simp [htests, hci, hdocker]
  split_ifs <;> omega

/-- C4: for every code-analysis record lacking tests, CI and a Dockerfile,
with the analysis and challenge identifier held fixed, the final adjusted
score at the `senior` tier is at most the final adjusted score at the
`1st_year` tier. -/
theorem weak_repo_senior_le_first_year (ca : CodeAnalysis) (cid : String)
    (htests : ca.testing.has_tests = false)
    (hci : ca.ci_cd.has_ci = false)
    (hdocker : ca.docker.has_dockerfile = false) :
    final_adjusted_score ca "senior" cid
      ≤ final_adjusted_score ca "1st_year" cid := by
  unfold final_adjusted_score apply_experience_adjustments
  have hms : (getBenchmark "senior").multiplier = 0.75 := rfl
  have hm1 : (getBenchmark "1st_year").multiplier = 1.0 := rfl
  rw [hms, hm1]
  have hrew := rewards_weak_eq ca htests hci hdocker
  have hpen := penalties_weak_mono ca cid htests hci hdocker
  refine max_le_max le_rfl (min_le_min ?_ le_rfl)
  rw [hrew]
  have hmul : (calculate_raw_technical_score ca cid : ℚ) * 0.75
      ≤ (calculate_raw_technical_score ca cid : ℚ) * 1.0 :=
    mul_le_mul_of_nonneg_left (by norm_num) (Nat.cast_nonneg _)
  have hpenQ : (calculate_penalties ca "1st_year" cid : ℚ)
      ≤ (calculate_penalties ca "senior" cid : ℚ) := by exact_mod_cast hpen
  linarith

/-- C4 (witness): the empty facts record lacks tests, CI and Docker, and its
senior-level final score is at most its 1st-year final score. -/
theorem weak_repo_senior_le_first_year_witness :
    emptyAnalysis.testing.has_tests = false
    ∧ emptyAnalysis.ci_cd.has_ci = false
    ∧ emptyAnalysis.docker.has_dockerfile = false
    ∧ final_adjusted_score emptyAnalysis "senior" "challenge_023"
        ≤ final_adjusted_score emptyAnalysis "1st_year" "challenge_023" :=
  ⟨rfl, rfl, rfl,
    weak_repo_senior_le_first_year emptyAnalysis "challenge_023" rfl rfl rfl⟩

/-! ## C9: unrecognized experience levels -/

/-- C9 (counterexample): for an analysis record that has tests (and nothing
else), an unrecognized experience level does not produce the same final score
as the `fresher` tier: the benchmark configuration falls back to `fresher`,
but the reward rules match on the literal tier name, so the unrecognized
level forfeits the junior-tier reward for having tests (`2.76` versus `5.76`
here). -/
theorem unknown_level_score_differs_from_fresher :
    final_adjusted_score testsOnlyAnalysis "unknown" "general"
      ≠ final_adjusted_score testsOnlyAnalysis "fresher" "general" := by
  have hraw : calculate_raw_technical_score testsOnlyAnalysis "general" = 3 := rfl
  have hpu : calculate_penalties testsOnlyAnalysis "unknown" "general" = 0 := rfl
  have hpf : calculate_penalties testsOnlyAnalysis "fresher" "general" = 0 := rfl
  have hru : calculate_rewards testsOnlyAnalysis "unknown" = 0 := rfl
  have hrf : calculate_rewards testsOnlyAnalysis "fresher" = 3 := rfl
  have hbu : (getBenchmark "unknown").multiplier = 0.92 := rfl
  have hbf : (getBenchmark "fresher").multiplier = 0.92 := rfl
  unfold final_adjusted_score apply_experience_adjustments
  rw [hraw, hpu, hpf, hru, hrf, hbu, hbf]
  norm_num

/-- C9 (amended): an unrecognized experience level never fails: its benchmark
configuration (multiplier, expected score, score range) resolves to the
`fresher` tier's, its hiring decision coincides with the `fresher` decision at
every score, and its penalty computation coincides with the `fresher` one; the
reward rules, however, match on the literal tier name, so the final adjusted
score can differ from the `fresher` evaluation (see the counterexample). -/
theorem unknown_level_uses_fresher_config (lvl : String) (h : lvl ∉ tierNames) :
    getBenchmark lvl = getBenchmark "fresher"
    ∧ (∀ s : ℚ, determine_hiring_decision s lvl
        = determine_hiring_decision s "fresher")
    ∧ ∀ ca cid, calculate_penalties ca lvl cid
        = calculate_penalties ca "fresher" cid := by
  simp only [tierNames, List.mem_cons, List.not_mem_nil, or_false] at h
  push_neg at h
  obtain ⟨h1, h2, h3, h4, h5, h6, h7⟩ := h
  have e1 : (lvl == "1st_year") = false := beq_eq_false_iff_ne.mpr h1
  have e2 : (lvl == "2nd_year") = false := beq_eq_false_iff_ne.mpr h2
  have e3 : (lvl == "3rd_year") = false := beq_eq_false_iff_ne.mpr h3
  have e4 : (lvl == "4th_year") = false := beq_eq_false_iff_ne.mpr h4
  have e5 : (lvl == "fresher") = false := beq_eq_false_iff_ne.mpr h5
  have e6 : (lvl == "experienced_0_2") = false := beq_eq_false_iff_ne.mpr h6
  have e7 : (lvl == "senior") = false := beq_eq_false_iff_ne.mpr h7
  have hb : getBenchmark lvl = getBenchmark "fresher" := by
    simp [getBenchmark, experience_benchmarks, List.lookup, e1, e2, e3, e4, e5, e6, e7]
  refine ⟨hb, ?_, ?_⟩
  · intro s
    rw [determine_hiring_decision, determine_hiring_decision, hb]
    simp [h3, h4, h6, h7]
  · intro ca cid
    rw [calculate_penalties, calculate_penalties]
    simp [h1, h2, h3, h4, h6, h7, calculate_challenge_penalties]

/-- C9 (witness): the concrete unrecognized level `"unknown"` resolves to the
`fresher` configuration, hiring decision and penalties. -/
theorem unknown_level_uses_fresher_config_witness :
    ("unknown" : String) ∉ tierNames
    ∧ getBenchmark "unknown" = getBenchmark "fresher"
    ∧ determine_hiring_decision 50 "unknown" = determine_hiring_decision 50 "fresher"
    ∧ calculate_penalties emptyAnalysis "unknown" "challenge_023"
        = calculate_penalties emptyAnalysis "fresher" "challenge_023" := by
  have h : ("unknown" : String) ∉ tierNames := by simp [tierNames]
  obtain ⟨hb, hd, hp⟩ := unknown_level_uses_fresher_config "unknown" h
  exact ⟨h, hb, hd 50, hp emptyAnalysis "challenge_023"⟩

/-! ## C5: hidden-directory files and the scanner -/

/-- C5 (counterexample): a Python file that exists only below the hidden
`.git` directory flips `has_error_handling` (the quality scan's `os.walk`
does not prune hidden directories) and is counted in `python_metrics`
(`rglob('*.py')` descends into hidden directories), so it does affect the
scanner's output. -/
theorem hidden_file_affects_quality_scan :
    hiddenTryFile.inHiddenDir = true
    ∧ (analyze_overall_quality [hiddenTryFile]).has_error_handling = true
    ∧ (analyze_overall_quality []).has_error_handling = false
    ∧ python_metrics_total_files [hiddenTryFile] = some 1
    ∧ python_metrics_total_files [] = none :=
  ⟨rfl, rfl, rfl, rfl, rfl⟩

/-- C5 (amended): a file below a dot-prefixed directory is invisible to the
pruned `os.walk` traversals — it changes neither the per-language file counts
nor the metadata file count — but it is inspected by the `rglob` and
unpruned-walk passes of `_analyze_code_quality`, so it can appear in
`python_metrics` and set quality signals (see the counterexample). -/
theorem hidden_dir_excluded_from_walk_counts (repo : List SrcFile) (f : SrcFile)
    (h : f.inHiddenDir = true) :
    walkVisible (f :: repo) = walkVisible repo
    ∧ (∀ lang, byLanguageCount (f :: repo) lang = byLanguageCount repo lang)
    ∧ metadata_total_files (f :: repo) = metadata_total_files repo := by
  have hw : walkVisible (f :: repo) = walkVisible repo := by
    simp [walkVisible, List.filter_cons, h]
  exact ⟨hw, fun lang => by simp [byLanguageCount, hw],
    by simp [metadata_total_files, hw]⟩

/-- C5 (witness): instantiated at the hidden try/except file over a small
visible repository. -/
theorem hidden_dir_excluded_from_walk_counts_witness :
    hiddenTryFile.inHiddenDir = true
    ∧ walkVisible (hiddenTryFile :: visibleDemoRepo) = walkVisible visibleDemoRepo
    ∧ byLanguageCount (hiddenTryFile :: visibleDemoRepo) "Python"
        = byLanguageCount visibleDemoRepo "Python"
    ∧ metadata_total_files (hiddenTryFile :: visibleDemoRepo)
        = metadata_total_files visibleDemoRepo := by
  obtain ⟨h1, h2, h3⟩ :=
    hidden_dir_excluded_from_walk_counts visibleDemoRepo hiddenTryFile rfl
  exact ⟨rfl, h1, h2 "Python", h3⟩

/-! ## C6: README quality score -/

/-- C6 (counterexample): the README content `"install usage"` matches exactly
two recognized sections (installation and usage) but scores 4, not
`min 2 10 = 2`: the quality score is not the count of sections found. -/
theorem readme_quality_score_not_section_count :
    readme_quality_score "install usage" = 4
    ∧ found_section_count "install usage" = 2
    ∧ readme_quality_score "install usage"
        ≠ min (found_section_count "install usage") 10 := by
  have e1 : readme_quality_score "install usage" = 4 := rfl
  have e2 : found_section_count "install usage" = 2 := rfl
  refine ⟨e1, e2, ?_⟩
  rw [e1, e2]
  decide

/-- C6 (amended): the README quality score equals the weighted section sum —
2 points each for the installation and usage sections, 1 point for each other
recognized section, found by case-insensitive substring matching — capped at
10; and a repository without a root README reports `exists = false` with
score 0. -/
theorem readme_quality_weighted_and_default (content : String)
    (repo : List SrcFile) (h : readmeFilesOf repo = []) :
    readme_quality_score content = min (weighted_section_score content) 10
    ∧ readme_quality_score content ≤ 10
    ∧ analyze_documentation_readme repo = ⟨false, 0⟩ := by
  refine ⟨?_, Nat.min_le_right _ _, ?_⟩
  · unfold readme_quality_score weighted_section_score
    generalize section_found content "installation" = b1
    generalize section_found content "usage" = b2
    generalize section_found content "api" = b3
    generalize section_found content "configuration" = b4
    generalize section_found content "testing" = b5
    generalize section_found content "deployment" = b6
    generalize section_found content "contributing" = b7
    generalize section_found content "license" = b8
    revert b1 b2 b3 b4 b5 b6 b7 b8
    decide
  · unfold analyze_documentation_readme
    rw [h]

/-- C6 (witness): instantiated at the content `"install usage"` and a
repository without a README. -/
theorem readme_quality_weighted_and_default_witness :
    readmeFilesOf torchRepo = []
    ∧ readme_quality_score "install usage"
        = min (weighted_section_score "install usage") 10
    ∧ readme_quality_score "install usage" ≤ 10
    ∧ analyze_documentation_readme torchRepo = ⟨false, 0⟩ := by
  obtain ⟨h1, h2, h3⟩ :=
    readme_quality_weighted_and_default "install usage" torchRepo rfl
  exact ⟨rfl, h1, h2, h3⟩

/-! ## C7: AI/ML indicators and requirements.txt -/

/-- C7 (counterexample): for the Scenario-D repository whose only file is a
`requirements.txt` listing `torch==2.0.1`, `opencv-python>=4.5` and
`langchain`, the scanner reports `has_ai_ml = false` (only `.py` files and
notebooks are inspected), and the challenge-023 penalty for missing AI/ML
technology at the `fresher` tier is 3, not 0. -/
theorem requirements_only_repo_not_ai_ml :
    has_ai_ml requirementsOnlyRepo = false
    ∧ calculate_challenge_penalties
        (analysisWithAiMl (has_ai_ml requirementsOnlyRepo))
        "challenge_023" "fresher" = 3 :=
  ⟨rfl, rfl⟩

/-- C7 (amended): `has_ai_ml` is derived from the content of the first 20
scanned `.py` files and from notebook presence — not from `requirements.txt`.
When a scanned Python file mentions an AI/ML library name, the indicator is
true, and whenever the indicator is true the challenge-023 missing-AI/ML
penalty is 0 at every tier. -/
theorem ai_ml_flag_from_python_content (repo : List SrcFile) (f : SrcFile)
    (hf : f ∈ (pythonFiles repo).take 20)
    (hlib : ai_ml_libraries.any
      (fun lib => strContains (lowerStr f.content) lib) = true) :
    has_ai_ml repo = true
    ∧ ∀ (ca : CodeAnalysis) (lvl : String),
        ca.challenge_specific.ai_ml_indicators.has_ai_ml = true →
        calculate_challenge_penalties ca "challenge_023" lvl = 0 := by
  constructor
  · unfold has_ai_ml
    have hany : ((pythonFiles repo).take 20).any
        (fun f => ai_ml_libraries.any
          (fun lib => strContains (lowerStr f.content) lib)) = true :=
      List.any_eq_true.mpr ⟨f, hf, hlib⟩
    simp [hany]
  · intro ca lvl hai
    simp [calculate_challenge_penalties, hai]

/-- C7 (witness): a repository with one Python file importing `torch` has the
AI/ML indicator set, and the challenge-023 penalty vanishes even at the
senior tier. -/
theorem ai_ml_flag_from_python_content_witness :
    (⟨["main.py"], "import torch\n"⟩ : SrcFile) ∈ (pythonFiles torchRepo).take 20
    ∧ has_ai_ml torchRepo = true
    ∧ calculate_challenge_penalties (analysisWithAiMl true)
        "challenge_023" "senior" = 0 := by
  have hf : (⟨["main.py"], "import torch\n"⟩ : SrcFile)
      ∈ (pythonFiles torchRepo).take 20 := by decide
  obtain ⟨h1, h2⟩ := ai_ml_flag_from_python_content torchRepo _ hf rfl
  exact ⟨hf, h1, h2 (analysisWithAiMl true) "senior" rfl⟩

/-! ## C8: deduplication of dependency and import lists -/

/-- C8 (counterexample): a `package.json` listing `react` both under
`dependencies` and under `devDependencies` makes
`RepositoryAnalyzer._analyze_dependencies` produce the node package list
`["react", "react"]`, which contains a duplicate. -/
theorem node_packages_can_duplicate :
    analyze_node_dependencies (some ⟨["react"], ["react"]⟩) = ["react", "react"]
    ∧ ¬ (analyze_node_dependencies (some ⟨["react"], ["react"]⟩)).Nodup := by
  refine ⟨rfl, ?_⟩
  decide

theorem requirements_step_nodup (packages : List String) (line : String)
    (h : packages.Nodup) : (requirements_step packages line).Nodup := by
  simp only [requirements_step]
  split_ifs with h1 h2
  · simp [List.nodup_append, List.disjoint_singleton, h, h2.2]
  · exact h
  · exact h

theorem foldl_requirements_nodup (lines : List String) (packages : List String)
    (h : packages.Nodup) : (lines.foldl requirements_step packages).Nodup := by
  induction lines generalizing packages with
  | nil => exact h
  | cons l ls ih => exact ih _ (requirements_step_nodup _ _ h)

/-- C8 (amended): the Python package lists built by the requirements parser,
the real analyzer's set-deduplicated package/image lists, and the collected
lists of imports are duplicate-free; the exception is `RepositoryAnalyzer`'s
node package list, which concatenates the `dependencies` and
`devDependencies` key lists without deduplication (see the counterexample). -/
theorem dependency_and_import_lists_nodup :
    (∀ lines : List String, (parse_requirements_txt lines).Nodup)
    ∧ (∀ l : List String, (set_dedup l).Nodup)
    ∧ (∀ l : List String, (imports_as_list l).Nodup) := by
  refine ⟨fun lines => foldl_requirements_nodup lines [] List.nodup_nil,
    fun l => List.nodup_dedup l, fun l => ?_⟩
  exact (List.take_sublist 20 l.dedup).nodup (List.nodup_dedup l)

/-! ## C10: bonus added after the 100-point cap; challenge 024 cannot return -/

/-- C10: for every analysis input, the challenge-023 evaluator returns
`final_score = min(total, 100) + min(bonus, 15)` with `max_score = 100`, so
the final score can exceed 100 (it reaches 115 on the concrete input
`perfectEngineAnalysis`) and never exceeds 115; the challenge-024 evaluator,
however, calls the undefined methods `_calculate_func_score_024` and
`_calculate_innov_score_024` and fails with an `AttributeError` instead of
returning a result. -/
theorem final_score_bonus_after_cap :
    (∀ a : EngineAnalysis,
      (evaluate_challenge_023 a).final_score
        = min (calculate_tech_score_023 a + calculate_func_score_023 a
            + calculate_innov_score_023 a) 100
          + min (calculate_bonus_score a) 15
      ∧ (evaluate_challenge_023 a).max_score = 100
      ∧ (evaluate_challenge_023 a).final_score ≤ 115)
    ∧ (evaluate_challenge_023 perfectEngineAnalysis).final_score = 115
    ∧ evaluate_challenge_024 emptyEngineAnalysis
        = Except.error "AttributeError: _calculate_func_score_024" := by
  refine ⟨fun a => ⟨rfl, rfl, ?_⟩, rfl, rfl⟩
  exact Nat.add_le_add (Nat.min_le_right _ _) (Nat.min_le_right _ _)

end CompetitionAnalyser
